import Mathlib

/-!
# Verification of the Timescale writer pipeline

A shallow embedding of `listenbrainz/timescale_writer/timescale_writer.py`:
the consume → enrich → insert → dedup-detect → republish loop of the
`TimescaleWriterSubscriber` class.  External collaborators (the MessyBrainz
lookup service, the Timescale listenstore, the Redis listenstore, the
RabbitMQ channels and the monotonic clock) are modelled as explicit oracle
parameters, and the observable effects of one call (publishes, reconnects,
metric emissions, error-level log lines, sleeps) are returned in outcome
structures alongside the mutated counter state.
-/

deriving instance DecidableEq for Except

namespace TimescaleWriter

/-- The constant `LISTEN_INSERT_ERROR_SENTINEL = -1` (timescale_writer.py line 20). -/
def LISTEN_INSERT_ERROR_SENTINEL : Int := -1

/-- The constant `METRIC_UPDATE_INTERVAL = 60` seconds (line 19). -/
def METRIC_UPDATE_INTERVAL : Nat := 60

/-- The validated domain object: the fields of `listenbrainz.listen.Listen`
that `insert_to_listenstore` reads (`listen.ts_since_epoch`,
`listen.data['track_name']`, `listen.user_name`, lines 193-194). -/
structure Listen where
  ts_since_epoch : Nat
  track_name : String
  user_name : String
deriving DecidableEq, Repr

/-- A row reported back by the storage engine's `insert`: the
`(timestamp, track_name, user_identifier)` tuple read positionally at
line 191 (`inserted[0]`, `inserted[1]`, `inserted[2]`). -/
def InsertedRow : Type := Nat × String × String
deriving instance DecidableEq, Repr for InsertedRow

/-- The key string `'%d-%s-%s' % (listen.ts_since_epoch,
listen.data['track_name'], listen.user_name)` built at line 194. -/
def listenKey (l : Listen) : String :=
  toString l.ts_since_epoch ++ "-" ++ l.track_name ++ "-" ++ l.user_name

/-- The key string `'%d-%s-%s' % (inserted[0], inserted[1], inserted[2])`
built at line 191 for a storage-reported row. -/
def rowKey (r : InsertedRow) : String :=
  toString r.1 ++ "-" ++ r.2.1 ++ "-" ++ r.2.2

/-- The `inserted_index` dict of lines 189-191: its key set, as the list of
key strings of the storage-reported rows. -/
def insertedIndex (rows : List InsertedRow) : List String :=
  rows.map rowKey

/-- The reconciliation loop of lines 193-196: the `unique` list collects, in
input order, every input Listen whose key string occurs in `inserted_index`. -/
def computeUnique (data : List Listen) (rows : List InsertedRow) : List Listen :=
  data.filter (fun l => (insertedIndex rows).contains (listenKey l))

/-- The per-instance counter state of `TimescaleWriterSubscriber`
(lines 39-41): the two running totals since the last metric flush and the
next metric-submission deadline on the monotonic clock. -/
structure WriterState where
  incoming_listens : Nat
  unique_listens : Nat
  metric_submission_time : Nat
deriving DecidableEq, Repr

/-- The one exception the Python code lets escape `insert_to_listenstore`:
`redis_listenstore.update_recent_listens` (line 213) is called outside any
try/except, so anything it raises propagates to `callback`'s caller. -/
inductive PyExn where
  | updateRecentListensError
deriving DecidableEq, Repr

/-- Oracle describing how the external collaborators of one
`insert_to_listenstore` call behave: what `ls.insert` does (raise
`psycopg2.OperationalError`, or return the list of newly-inserted rows),
whether the two Redis side-channel calls raise, how many consecutive
`ConnectionClosed` errors `unique_ch.basic_publish` raises before
succeeding, and what `monotonic()` reads at the metric check. -/
structure StoreEnv where
  insertResult : Except Unit (List InsertedRow)
  incrementFails : Bool
  publishFailures : Nat
  updateRecentFails : Bool
  now : Nat
deriving DecidableEq, Repr

/-- Everything observable about one `insert_to_listenstore` call: the value
returned (or the exception that escaped), the counter state afterwards, and
the side effects on each collaborator. -/
structure InsertOutcome where
  ret : Except PyExn Int
  state : WriterState
  storageCalls : Nat
  publishAttempts : Nat
  publishSuccesses : Nat
  reconnects : Nat
  publishedBodies : List (List Listen)
  deadlineChecked : Bool
  metricsEmits : List (Nat × Nat)
  sleeps : Nat
  errorLogs : Nat
deriving DecidableEq, Repr

/-- The `while True: try op; break; except ConnectionClosed:
connect_to_rabbitmq()` retry loop (lines 92-97 and 201-211), indexed by the
number of `ConnectionClosed` failures before the operation succeeds.
Returns (total attempts, reconnects); the loop always ends with exactly one
successful attempt. -/
def retryUntilSuccess : Nat → Nat × Nat
  | 0 => (1, 0)
  | n + 1 =>
    let (a, r) := retryUntilSuccess n
    (a + 1, r + 1)

/-- The method `TimescaleWriterSubscriber.insert_to_listenstore` (lines 154-222),
with the collaborators' behaviour supplied by `env` and the instance
counters threaded through as `st`. -/
def insert_to_listenstore (env : StoreEnv) (st : WriterState) (data : List Listen) :
    InsertOutcome :=
  -- line 168: `if not data: return 0`
  if data.isEmpty then
    { ret := .ok 0, state := st, storageCalls := 0, publishAttempts := 0,
      publishSuccesses := 0, reconnects := 0, publishedBodies := [],
      deadlineChecked := false, metricsEmits := [], sleeps := 0, errorLogs := 0 }
  else
    -- line 171: `self.incoming_listens += len(data)`
    let st1 : WriterState := { st with incoming_listens := st.incoming_listens + data.length }
    match env.insertResult with
    | .error _ =>
      -- lines 174-177: log, sleep, return the sentinel
      { ret := .ok LISTEN_INSERT_ERROR_SENTINEL, state := st1, storageCalls := 1,
        publishAttempts := 0, publishSuccesses := 0, reconnects := 0,
        publishedBodies := [], deadlineChecked := false, metricsEmits := [],
        sleeps := 1, errorLogs := 1 }
    | .ok rows_inserted =>
      -- lines 179-180: `if not rows_inserted: return len(data)`
      if rows_inserted.isEmpty then
        { ret := .ok data.length, state := st1, storageCalls := 1, publishAttempts := 0,
          publishSuccesses := 0, reconnects := 0, publishedBodies := [],
          deadlineChecked := false, metricsEmits := [], sleeps := 0, errorLogs := 0 }
      else
        -- lines 182-186: best-effort redis day-counter increment, errors swallowed
        let incLogs : Nat := if env.incrementFails then 1 else 0
        -- lines 188-196: build `inserted_index`, reconcile to the `unique` list
        let unique := computeUnique data rows_inserted
        -- lines 198-199: `if not unique: return len(data)`
        if unique.isEmpty then
          { ret := .ok data.length, state := st1, storageCalls := 1, publishAttempts := 0,
            publishSuccesses := 0, reconnects := 0, publishedBodies := [],
            deadlineChecked := false, metricsEmits := [], sleeps := 0, errorLogs := incLogs }
        else
          -- lines 201-211: publish the unique subset, retrying on ConnectionClosed
          let (att, rec) := retryUntilSuccess env.publishFailures
          -- line 213: `update_recent_listens(unique)` — NOT guarded by try/except
          if env.updateRecentFails then
            { ret := .error .updateRecentListensError, state := st1, storageCalls := 1,
              publishAttempts := att, publishSuccesses := 1, reconnects := rec,
              publishedBodies := [unique], deadlineChecked := false, metricsEmits := [],
              sleeps := 0, errorLogs := incLogs }
          else
            -- line 214: `self.unique_listens += len(unique)`
            let st2 : WriterState := { st1 with unique_listens := st1.unique_listens + unique.length }
            -- lines 216-220: metric flush when the monotonic deadline has passed
            if env.now > st2.metric_submission_time then
              let st3 : WriterState :=
                { incoming_listens := 0, unique_listens := 0,
                  metric_submission_time := st2.metric_submission_time + METRIC_UPDATE_INTERVAL }
              { ret := .ok data.length, state := st3, storageCalls := 1, publishAttempts := att,
                publishSuccesses := 1, reconnects := rec, publishedBodies := [unique],
                deadlineChecked := true,
                metricsEmits := [(st2.incoming_listens, st2.unique_listens)],
                sleeps := 0, errorLogs := incLogs }
            else
              { ret := .ok data.length, state := st2, storageCalls := 1, publishAttempts := att,
                publishSuccesses := 1, reconnects := rec, publishedBodies := [unique],
                deadlineChecked := true, metricsEmits := [], sleeps := 0, errorLogs := incLogs }

/-- The optional `track_metadata['additional_info']` mapping of a raw wire
record, restricted to the keys `messybrainz_lookup` projects (lines 111-122). -/
structure AdditionalInfo where
  artist_mbids : Option (List String)
  release_mbid : Option String
  recording_mbid : Option String
  track_number : Option String
  spotify_id : Option String
deriving DecidableEq, Repr

/-- A raw record off the wire (§6: `{track_metadata: {artist_name,
track_name, release_name?, additional_info?}, listened_at, user_name}`).
The record arrives untyped; `wellFormed` stands for "the required fields
are present and well-formed", the condition under which `Listen.from_json`
(repository code outside src/) succeeds — see `Listen.from_json` below. -/
structure RawListen where
  listened_at : Nat
  user_name : String
  artist_name : String
  track_name : String
  release_name : Option String
  additional_info : Option AdditionalInfo
  wellFormed : Bool
deriving DecidableEq, Repr

/-- The `messy_dict` projection built per record at lines 104-122. -/
structure MessyDict where
  artist : String
  title : String
  release : Option String
  artist_mbids : Option (List String)
  release_mbid : Option String
  recording_mbid : Option String
  track_number : Option String
  spotify_id : Option String
deriving DecidableEq, Repr

/-- Lines 104-122: project one raw record to its `messy_dict`, sorting the
`artist_mbids` list as `sorted(ai['artist_mbids'])` does. -/
def toMessyDict (listen : RawListen) : MessyDict :=
  { artist := listen.artist_name
    title := listen.track_name
    release := listen.release_name
    artist_mbids :=
      (listen.additional_info.bind fun ai => ai.artist_mbids).map
        (fun xs => xs.mergeSort (fun a b => a ≤ b))
    release_mbid := listen.additional_info.bind fun ai => ai.release_mbid
    recording_mbid := listen.additional_info.bind fun ai => ai.recording_mbid
    track_number := listen.additional_info.bind fun ai => ai.track_number
    spotify_id := listen.additional_info.bind fun ai => ai.spotify_id }

/-- The `ids` mapping of one element of the MessyBrainz response payload
(line 134); each identifier may be absent (`KeyError` on access). -/
structure MsbIds where
  recording_msid : Option String
  artist_msid : Option String
  release_msid : Option String
deriving DecidableEq, Repr

/-- A raw record augmented with the resolved identifiers that lines 140-149
write into it (`recording_msid`, `additional_info['artist_msid']`, and the
optional `additional_info['release_msid']`). -/
structure EnrichedListen where
  raw : RawListen
  recording_msid : String
  artist_msid : String
  release_msid : Option String
deriving DecidableEq, Repr

/-- Result of one `messybrainz_lookup` call: the augmented records it
returns and the number of error-level log lines it emitted. -/
structure LookupOutcome where
  augmented : List EnrichedListen
  errorLogs : Nat
deriving DecidableEq, Repr

/-- Both mandatory identifiers are present in a response element. -/
def hasMandatoryIds (ids : MsbIds) : Bool :=
  ids.recording_msid.isSome && ids.artist_msid.isSome

/-- The successful-path augmentation of one (record, response) pair
(lines 140-149). Only evaluated under `hasMandatoryIds`. -/
def augmentOne (p : RawListen × MsbIds) : EnrichedListen :=
  { raw := p.1
    recording_msid := p.2.recording_msid.getD ""
    artist_msid := p.2.artist_msid.getD ""
    release_msid := p.2.release_msid }

/-- The `for listen, messybrainz_resp in zip(...)` loop of lines 133-151:
accumulates augmented records; on the first response element missing a
mandatory identifier it logs one error and the whole function returns `[]`
(line 144), discarding the accumulator. -/
def augmentGo : List (RawListen × MsbIds) → List EnrichedListen → LookupOutcome
  | [], acc => { augmented := acc, errorLogs := 0 }
  | p :: rest, acc =>
    match p.2.recording_msid, p.2.artist_msid with
    | some _, some _ => augmentGo rest (acc ++ [augmentOne p])
    | _, _ => { augmented := [], errorLogs := 1 }

/-- The method `TimescaleWriterSubscriber.messybrainz_lookup` (lines 101-152) for one
sub-batch, with the MessyBrainz service supplied as the oracle `lk`: build
the projections, call the service once (a `BadDataException` /
`ErrorAddingException` is logged and yields `[]`, lines 126-130), then merge
the response positionally. -/
def messybrainz_lookup (lk : List MessyDict → Except Unit (List MsbIds))
    (listens : List RawListen) : LookupOutcome :=
  match lk (listens.map toMessyDict) with
  | .error _ => { augmented := [], errorLogs := 1 }
  | .ok payload => augmentGo (listens.zip payload) []

/-- Structural worker for `chunked`, with fuel bounding the number of
chunks: each step takes one chunk `x :: xs.take (n-1)` of size `n` off the
front. The fuel `xs.length` always suffices since every chunk is nonempty. -/
def chunkedFuel (n : Nat) : Nat → List α → List (List α)
  | _, [] => []
  | 0, _ :: _ => []
  | fuel + 1, x :: xs => (x :: xs.take (n - 1)) :: chunkedFuel n fuel (xs.drop (n - 1))

/-- The helper `more_itertools.chunked n`: split a list into consecutive sub-batches of
size `n` (the last possibly shorter); `chunk (x :: xs) = x :: xs.take (n-1)`
and the rest is `xs.drop (n-1)`. The Python bound
`MAX_ITEMS_PER_MESSYBRAINZ_LOOKUP` is positive. -/
def chunked (n : Nat) (xs : List α) : List (List α) :=
  chunkedFuel n xs.length xs

/-- Modelled from the spec: `Listen.from_json` lives in
`listenbrainz/listen.py`, which is not under src/. §3: "Listen: the
validated domain object — owns a timestamp (seconds since epoch), a user
identifier, and the metadata mapping. Constructed by parsing an
EnrichedRecord; construction fails (record dropped) if required fields are
malformed or missing." Parsing raises `ValueError` exactly when the raw
record's required fields are not well-formed (its `wellFormed` flag). -/
def Listen.from_json (e : EnrichedListen) : Except Unit Listen :=
  if e.raw.wellFormed then
    .ok { ts_since_epoch := e.raw.listened_at
          track_name := e.raw.track_name
          user_name := e.raw.user_name }
  else
    .error ()

/-- Result of the enrichment stage of `callback` (lines 75-77): the
concatenated `msb_listens` and the error-level log lines emitted. -/
structure EnrichOutcome where
  msb : List EnrichedListen
  errorLogs : Nat
deriving DecidableEq, Repr

/-- One iteration of the enrichment loop of lines 76-77:
`msb_listens.extend(self.messybrainz_lookup(chunk))`. -/
def enrichStep (lk : List MessyDict → Except Unit (List MsbIds))
    (acc : EnrichOutcome) (chunk : List RawListen) : EnrichOutcome :=
  let r := messybrainz_lookup lk chunk
  { msb := acc.msb ++ r.augmented, errorLogs := acc.errorLogs + r.errorLogs }

/-- Lines 75-77 of `callback`: run `messybrainz_lookup` on each sub-batch of
size `chunkSize` and extend `msb_listens` with each result. -/
def enrichStage (lk : List MessyDict → Except Unit (List MsbIds))
    (chunkSize : Nat) (listens : List RawListen) : EnrichOutcome :=
  (chunked chunkSize listens).foldl (enrichStep lk) { msb := [], errorLogs := 0 }

/-- One iteration of the parse loop of lines 80-84: `try:
submit.append(Listen.from_json(listen)) except ValueError: pass`. -/
def parseStep (submit : List Listen) (e : EnrichedListen) : List Listen :=
  match Listen.from_json e with
  | .ok l => submit ++ [l]
  | .error _ => submit

/-- Lines 79-84 of `callback`: parse each enriched record into a `Listen`,
dropping (with a bare `pass`) any record whose parse raises `ValueError`. -/
def parseStage (msb : List EnrichedListen) : List Listen :=
  msb.foldl parseStep []

/-- Oracle for one `callback` invocation: the MessyBrainz service, the
sub-batch size bound (`MAX_ITEMS_PER_MESSYBRAINZ_LOOKUP`, imported from
repository code outside src/; modelled from the spec §4.2 as "a configured
maximum lookup batch size"), the storage/Redis/clock behaviour for the
inner `insert_to_listenstore` call, and how many `ConnectionClosed` errors
`basic_ack` raises before succeeding. -/
structure CallbackEnv where
  lookup : List MessyDict → Except Unit (List MsbIds)
  chunkSize : Nat
  store : StoreEnv
  ackFailures : Nat

/-- Everything observable about one `callback` invocation. `errorLogs`
totals the error-level log lines of the enrichment stage and of
`insert_to_listenstore`; the parse loop of lines 79-84 contributes none. -/
structure CallbackOutcome where
  ret : Except PyExn Int
  insert : InsertOutcome
  submit : List Listen
  ackAttempts : Nat
  ackSuccesses : Nat
  ackReconnects : Nat
  errorLogs : Nat
deriving DecidableEq, Repr

/-- The tail of `callback` from line 79 on, given the enrichment stage's result: parse,
insert, and then either return the sentinel without acking (lines 88-90) or
ack with the `ConnectionClosed` retry loop (lines 92-98) and return the
count. An exception escaping `insert_to_listenstore` propagates out of
`callback` (no surrounding try/except), so no ack is attempted. -/
def afterEnrichment (env : CallbackEnv) (st : WriterState) (enr : EnrichOutcome) :
    CallbackOutcome :=
  let submit := parseStage enr.msb
  let out := insert_to_listenstore env.store st submit
  match out.ret with
  | .error e =>
    { ret := .error e, insert := out, submit := submit, ackAttempts := 0,
      ackSuccesses := 0, ackReconnects := 0, errorLogs := enr.errorLogs + out.errorLogs }
  | .ok v =>
    if v = LISTEN_INSERT_ERROR_SENTINEL then
      { ret := .ok v, insert := out, submit := submit, ackAttempts := 0,
        ackSuccesses := 0, ackReconnects := 0, errorLogs := enr.errorLogs + out.errorLogs }
    else
      let (att, rec) := retryUntilSuccess env.ackFailures
      { ret := .ok v, insert := out, submit := submit, ackAttempts := att,
        ackSuccesses := 1, ackReconnects := rec, errorLogs := enr.errorLogs + out.errorLogs }

/-- The method `TimescaleWriterSubscriber.callback` (lines 71-99) on one already
deserialized message body. -/
def callback (env : CallbackEnv) (st : WriterState) (listens : List RawListen) :
    CallbackOutcome :=
  afterEnrichment env st (enrichStage env.lookup env.chunkSize listens)

/-! ### Concrete fixtures used by the closed witness and counterexample
theorems below. -/

/-- A counter state with both totals zero and the first metric deadline. -/
def st0 : WriterState := { incoming_listens := 0, unique_listens := 0, metric_submission_time := 60 }

/-- A well-formed raw record that parses to `Listen ⟨5, "t", "u"⟩`. -/
def rawA : RawListen :=
  { listened_at := 5, user_name := "u", artist_name := "ar", track_name := "t",
    release_name := none, additional_info := none, wellFormed := true }

/-- A second well-formed raw record, parsing to `Listen ⟨6, "t2", "u"⟩`. -/
def rawB : RawListen :=
  { listened_at := 6, user_name := "u", artist_name := "ar2", track_name := "t2",
    release_name := none, additional_info := none, wellFormed := true }

/-- A malformed raw record: `Listen.from_json` raises `ValueError` on it. -/
def rawBad : RawListen :=
  { listened_at := 7, user_name := "u", artist_name := "ar3", track_name := "t3",
    release_name := none, additional_info := none, wellFormed := false }

/-- A MessyBrainz response element carrying both mandatory identifiers. -/
def goodIds : MsbIds := { recording_msid := some "r", artist_msid := some "a", release_msid := none }

/-- A MessyBrainz response element missing the mandatory `recording_msid`. -/
def badIds : MsbIds := { recording_msid := none, artist_msid := some "a", release_msid := none }

/-- A storage environment where everything succeeds and `ls.insert` reports
the row `(5, "t", "u")` as newly inserted. -/
def okEnv : StoreEnv :=
  { insertResult := .ok [(5, "t", "u")], incrementFails := false, publishFailures := 0,
    updateRecentFails := false, now := 0 }

/-- Like `okEnv` but `ls.insert` raises `psycopg2.OperationalError`. -/
def errEnv : StoreEnv := { okEnv with insertResult := .error () }

/-- Like `okEnv` but `update_recent_listens` raises. -/
def recentFailEnv : StoreEnv := { okEnv with updateRecentFails := true }

/-- A callback environment in which the MessyBrainz service always resolves
one record to `goodIds` and everything downstream succeeds. -/
def okCbEnv : CallbackEnv :=
  { lookup := fun _ => .ok [goodIds], chunkSize := 10, store := okEnv, ackFailures := 0 }

/-- A batch of five Listens `L1..L5` with pairwise distinct keys. -/
def batchL1toL5 : List Listen :=
  [⟨1, "t1", "u"⟩, ⟨2, "t2", "u"⟩, ⟨3, "t3", "u"⟩, ⟨4, "t4", "u"⟩, ⟨5, "t5", "u"⟩]

/-- A storage response whose keys match exactly `L2` and `L5` of `batchL1toL5`. -/
def rowsL2L5 : List InsertedRow := [(2, "t2", "u"), (5, "t5", "u")]

/-- The record `rawA` augmented with the identifiers of `goodIds`. -/
def enrA : EnrichedListen :=
  { raw := rawA, recording_msid := "r", artist_msid := "a", release_msid := none }

/-- The malformed record `rawBad` augmented with the identifiers of `goodIds`;
`Listen.from_json` fails on it. -/
def enrBad : EnrichedListen :=
  { raw := rawBad, recording_msid := "r", artist_msid := "a", release_msid := none }

/-- A MessyBrainz service whose response resolves the first record of a
two-record sub-batch fully but returns no `recording_msid` for the second. -/
def mixedLookup : List MessyDict → Except Unit (List MsbIds) := fun _ => .ok [goodIds, badIds]

/-! ### Helper lemmas -/

theorem retryUntilSuccess_eq (n : Nat) : retryUntilSuccess n = (n + 1, n) := by
  induction n with
  | zero => rfl
  | succ n ih => simp [retryUntilSuccess, ih]

theorem mem_computeUnique {data : List Listen} {rows : List InsertedRow} (l : Listen) :
    l ∈ computeUnique data rows ↔ l ∈ data ∧ listenKey l ∈ insertedIndex rows := by
  simp [computeUnique, List.mem_filter, List.elem_iff]

theorem chunkedFuel_flatten {α : Type _} (n : Nat) :
    ∀ fuel (xs : List α), xs.length ≤ fuel → (chunkedFuel n fuel xs).flatten = xs := by
  intro fuel
  induction fuel with
  | zero =>
    intro xs h
    cases xs with
    | nil => rfl
    | cons x xs => simp at h
  | succ fuel ih =>
    intro xs h
    cases xs with
    | nil => rfl
    | cons x xs =>
      simp only [chunkedFuel, List.flatten_cons]
      rw [ih (xs.drop (n - 1)) (by simp only [List.length_drop]; simp at h; omega)]
      simp [List.take_append_drop]

theorem chunked_flatten {α : Type _} (n : Nat) (xs : List α) :
    (chunked n xs).flatten = xs :=
  chunkedFuel_flatten n xs.length xs le_rfl

theorem enrichStage_foldl (lk : List MessyDict → Except Unit (List MsbIds)) :
    ∀ (chunks : List (List RawListen)) (acc : EnrichOutcome),
      (chunks.foldl (enrichStep lk) acc).msb =
        acc.msb ++ (chunks.map fun c => (messybrainz_lookup lk c).augmented).flatten := by
  intro chunks
  induction chunks with
  | nil => intro acc; simp
  | cons c rest ih =>
    intro acc
    simp only [List.foldl_cons, List.map_cons, List.flatten_cons, ih, enrichStep]
    simp [List.append_assoc]

theorem enrichStage_msb (lk : List MessyDict → Except Unit (List MsbIds))
    (chunkSize : Nat) (listens : List RawListen) :
    (enrichStage lk chunkSize listens).msb =
      ((chunked chunkSize listens).map fun c => (messybrainz_lookup lk c).augmented).flatten := by
  simp [enrichStage, enrichStage_foldl]

theorem augmentGo_all_mandatory :
    ∀ (l : List (RawListen × MsbIds)) (acc : List EnrichedListen),
      (∀ p ∈ l, hasMandatoryIds p.2 = true) →
      augmentGo l acc = { augmented := acc ++ l.map augmentOne, errorLogs := 0 } := by
  intro l
  induction l with
  | nil => intro acc _; simp [augmentGo]
  | cons p rest ih =>
    intro acc h
    have hp : hasMandatoryIds p.2 = true := h p (List.mem_cons_self p rest)
    simp only [hasMandatoryIds, Bool.and_eq_true, Option.isSome_iff_exists] at hp
    obtain ⟨⟨x, hx⟩, ⟨y, hy⟩⟩ := hp
    simp only [augmentGo, hx, hy]
    rw [ih (acc ++ [augmentOne p]) (fun q hq => h q (List.mem_cons_of_mem p hq))]
    simp [List.append_assoc]

theorem augmentGo_some_missing :
    ∀ (l : List (RawListen × MsbIds)) (acc : List EnrichedListen),
      (∃ p ∈ l, hasMandatoryIds p.2 = false) →
      augmentGo l acc = { augmented := [], errorLogs := 1 } := by
  intro l
  induction l with
  | nil => intro acc h; simp at h
  | cons q rest ih =>
    intro acc h
    cases hx : q.2.recording_msid with
    | none => simp [augmentGo, hx]
    | some x =>
      cases hy : q.2.artist_msid with
      | none => simp [augmentGo, hx, hy]
      | some y =>
        simp only [augmentGo, hx, hy]
        apply ih
        rcases h with ⟨p, hp, hpbad⟩
        rcases List.mem_cons.mp hp with rfl | hmem
        · simp [hasMandatoryIds, hx, hy] at hpbad
        · exact ⟨p, hmem, hpbad⟩

theorem parseStep_error {e : EnrichedListen} (he : Listen.from_json e = .error ())
    (acc : List Listen) : parseStep acc e = acc := by
  simp [parseStep, he]

theorem parseStage_drop_middle {e : EnrichedListen} (he : Listen.from_json e = .error ())
    (p s : List EnrichedListen) : parseStage (p ++ e :: s) = parseStage (p ++ s) := by
  simp only [parseStage, List.foldl_append, List.foldl_cons, parseStep_error he]

/-! ### Path lemmas for `insert_to_listenstore`: one per control-flow path
of the Python function. -/

theorem isEmpty_false_of_ne_nil {α : Type _} {l : List α} (h : l ≠ []) :
    l.isEmpty = false := by
  cases l with
  | nil => exact absurd rfl h
  | cons a t => rfl

theorem insert_nil (env : StoreEnv) (st : WriterState) :
    insert_to_listenstore env st [] =
      { ret := .ok 0, state := st, storageCalls := 0, publishAttempts := 0,
        publishSuccesses := 0, reconnects := 0, publishedBodies := [],
        deadlineChecked := false, metricsEmits := [], sleeps := 0, errorLogs := 0 } := rfl

theorem insert_storage_error (env : StoreEnv) (st : WriterState) (data : List Listen)
    (hdata : data ≠ []) (he : env.insertResult = .error ()) :
    insert_to_listenstore env st data =
      { ret := .ok LISTEN_INSERT_ERROR_SENTINEL,
        state := { st with incoming_listens := st.incoming_listens + data.length },
        storageCalls := 1, publishAttempts := 0, publishSuccesses := 0, reconnects := 0,
        publishedBodies := [], deadlineChecked := false, metricsEmits := [],
        sleeps := 1, errorLogs := 1 } := by
  unfold insert_to_listenstore
  rw [if_neg (by simp [List.isEmpty_iff, hdata]), he]

theorem insert_rows_nil (env : StoreEnv) (st : WriterState) (data : List Listen)
    (hdata : data ≠ []) (he : env.insertResult = .ok []) :
    insert_to_listenstore env st data =
      { ret := .ok (data.length : Int),
        state := { st with incoming_listens := st.incoming_listens + data.length },
        storageCalls := 1, publishAttempts := 0, publishSuccesses := 0, reconnects := 0,
        publishedBodies := [], deadlineChecked := false, metricsEmits := [],
        sleeps := 0, errorLogs := 0 } := by
  unfold insert_to_listenstore
  simp only [he, isEmpty_false_of_ne_nil hdata]
  rfl

theorem insert_unique_nil (env : StoreEnv) (st : WriterState) (data : List Listen)
    (rows : List InsertedRow) (hdata : data ≠ []) (he : env.insertResult = .ok rows)
    (hrows : rows ≠ []) (huniq : computeUnique data rows = []) :
    insert_to_listenstore env st data =
      { ret := .ok (data.length : Int),
        state := { st with incoming_listens := st.incoming_listens + data.length },
        storageCalls := 1, publishAttempts := 0, publishSuccesses := 0, reconnects := 0,
        publishedBodies := [], deadlineChecked := false, metricsEmits := [], sleeps := 0,
        errorLogs := if env.incrementFails then 1 else 0 } := by
  unfold insert_to_listenstore
  simp only [he, isEmpty_false_of_ne_nil hdata, isEmpty_false_of_ne_nil hrows, huniq]
  rfl

theorem insert_recent_fail (env : StoreEnv) (st : WriterState) (data : List Listen)
    (rows : List InsertedRow) (hdata : data ≠ []) (he : env.insertResult = .ok rows)
    (hrows : rows ≠ []) (huniq : computeUnique data rows ≠ [])
    (hurf : env.updateRecentFails = true) :
    insert_to_listenstore env st data =
      { ret := .error .updateRecentListensError,
        state := { st with incoming_listens := st.incoming_listens + data.length },
        storageCalls := 1, publishAttempts := env.publishFailures + 1, publishSuccesses := 1,
        reconnects := env.publishFailures, publishedBodies := [computeUnique data rows],
        deadlineChecked := false, metricsEmits := [], sleeps := 0,
        errorLogs := if env.incrementFails then 1 else 0 } := by
  unfold insert_to_listenstore
  simp only [he, isEmpty_false_of_ne_nil hdata, isEmpty_false_of_ne_nil hrows,
    isEmpty_false_of_ne_nil huniq, retryUntilSuccess_eq, hurf]
  rfl

theorem insert_success_noflush (env : StoreEnv) (st : WriterState) (data : List Listen)
    (rows : List InsertedRow) (hdata : data ≠ []) (he : env.insertResult = .ok rows)
    (hrows : rows ≠ []) (huniq : computeUnique data rows ≠ [])
    (hurf : env.updateRecentFails = false) (hnow : ¬ env.now > st.metric_submission_time) :
    insert_to_listenstore env st data =
      { ret := .ok (data.length : Int),
        state := { incoming_listens := st.incoming_listens + data.length,
                   unique_listens := st.unique_listens + (computeUnique data rows).length,
                   metric_submission_time := st.metric_submission_time },
        storageCalls := 1, publishAttempts := env.publishFailures + 1, publishSuccesses := 1,
        reconnects := env.publishFailures, publishedBodies := [computeUnique data rows],
        deadlineChecked := true, metricsEmits := [], sleeps := 0,
        errorLogs := if env.incrementFails then 1 else 0 } := by
  unfold insert_to_listenstore
  simp only [he, isEmpty_false_of_ne_nil hdata, isEmpty_false_of_ne_nil hrows,
    isEmpty_false_of_ne_nil huniq, retryUntilSuccess_eq, hurf]
  rw [if_neg hnow]
  rfl

theorem insert_success_flush (env : StoreEnv) (st : WriterState) (data : List Listen)
    (rows : List InsertedRow) (hdata : data ≠ []) (he : env.insertResult = .ok rows)
    (hrows : rows ≠ []) (huniq : computeUnique data rows ≠ [])
    (hurf : env.updateRecentFails = false) (hnow : env.now > st.metric_submission_time) :
    insert_to_listenstore env st data =
      { ret := .ok (data.length : Int),
        state := { incoming_listens := 0, unique_listens := 0,
                   metric_submission_time := st.metric_submission_time + METRIC_UPDATE_INTERVAL },
        storageCalls := 1, publishAttempts := env.publishFailures + 1, publishSuccesses := 1,
        reconnects := env.publishFailures, publishedBodies := [computeUnique data rows],
        deadlineChecked := true,
        metricsEmits := [(st.incoming_listens + data.length,
                          st.unique_listens + (computeUnique data rows).length)],
        sleeps := 0, errorLogs := if env.incrementFails then 1 else 0 } := by
  unfold insert_to_listenstore
  simp only [he, isEmpty_false_of_ne_nil hdata, isEmpty_false_of_ne_nil hrows,
    isEmpty_false_of_ne_nil huniq, retryUntilSuccess_eq, hurf]
  rw [if_pos hnow]
  rfl

theorem computeUnique_nil_rows (data : List Listen) : computeUnique data [] = [] := by
  simp [computeUnique, insertedIndex]

/-- Branch equations for `afterEnrichment`: the no-ack exception branch, the
no-ack sentinel branch (lines 88-90), and the ack-and-return branch
(lines 92-99). -/
theorem afterEnrichment_cases (env : CallbackEnv) (st : WriterState) (enr : EnrichOutcome) :
    (∀ e, (insert_to_listenstore env.store st (parseStage enr.msb)).ret = .error e →
      afterEnrichment env st enr =
        { ret := .error e, insert := insert_to_listenstore env.store st (parseStage enr.msb),
          submit := parseStage enr.msb, ackAttempts := 0, ackSuccesses := 0, ackReconnects := 0,
          errorLogs := enr.errorLogs +
            (insert_to_listenstore env.store st (parseStage enr.msb)).errorLogs }) ∧
    ((insert_to_listenstore env.store st (parseStage enr.msb)).ret =
        .ok LISTEN_INSERT_ERROR_SENTINEL →
      afterEnrichment env st enr =
        { ret := .ok LISTEN_INSERT_ERROR_SENTINEL,
          insert := insert_to_listenstore env.store st (parseStage enr.msb),
          submit := parseStage enr.msb, ackAttempts := 0, ackSuccesses := 0, ackReconnects := 0,
          errorLogs := enr.errorLogs +
            (insert_to_listenstore env.store st (parseStage enr.msb)).errorLogs }) ∧
    (∀ v : Int, (insert_to_listenstore env.store st (parseStage enr.msb)).ret = .ok v →
      v ≠ LISTEN_INSERT_ERROR_SENTINEL →
      afterEnrichment env st enr =
        { ret := .ok v, insert := insert_to_listenstore env.store st (parseStage enr.msb),
          submit := parseStage enr.msb, ackAttempts := env.ackFailures + 1, ackSuccesses := 1,
          ackReconnects := env.ackFailures,
          errorLogs := enr.errorLogs +
            (insert_to_listenstore env.store st (parseStage enr.msb)).errorLogs }) := by
  refine ⟨?_, ?_, ?_⟩
  · intro e he
    simp only [afterEnrichment, he]
  · intro he
    simp only [afterEnrichment, he, if_pos rfl]
    rfl
  · intro v hv hne
    simp only [afterEnrichment, hv, if_neg hne, retryUntilSuccess_eq]

/-! ### Claims -/

/-- C2: the unique subset computed by the reconciliation in
`insert_to_listenstore` (lines 188-196) is always a subset of the insertion
input; a Listen is selected exactly when its composite key — the
hyphen-joined key string the code builds from
`(timestamp, track_name, user_name)` — matches the key of some
storage-reported tuple; the selection is independent of input ordering
(permuting the input only permutes the selected subset); and if the storage
response matches exactly `L2` and `L5` among the inputs, the unique
output's members are exactly `{L2, L5}`. -/
theorem unique_reconciliation_correct (data : List Listen) (rows : List InsertedRow) :
    (∀ l ∈ computeUnique data rows, l ∈ data) ∧
    (∀ l, l ∈ computeUnique data rows ↔ l ∈ data ∧ listenKey l ∈ insertedIndex rows) ∧
    (∀ data2 : List Listen, data.Perm data2 →
      (computeUnique data rows).Perm (computeUnique data2 rows)) ∧
    (∀ L2 L5 : Listen, L2 ∈ data → L5 ∈ data →
      (∀ l ∈ data, (listenKey l ∈ insertedIndex rows ↔ (l = L2 ∨ l = L5))) →
      ∀ l, l ∈ computeUnique data rows ↔ (l = L2 ∨ l = L5)) := by
  refine ⟨?_, mem_computeUnique, ?_, ?_⟩
  · intro l hl
    exact ((mem_computeUnique l).mp hl).1
  · intro data2 hperm
    exact hperm.filter _
  · intro L2 L5 h2 h5 hkey l
    constructor
    · intro hl
      obtain ⟨hld, hlk⟩ := (mem_computeUnique l).mp hl
      exact (hkey l hld).mp hlk
    · rintro (rfl | rfl)
      · exact (mem_computeUnique l).mpr ⟨h2, (hkey l h2).mpr (Or.inl rfl)⟩
      · exact (mem_computeUnique l).mpr ⟨h5, (hkey l h5).mpr (Or.inr rfl)⟩

/-- Witness for C2 at the concrete batch `L1..L5` with a storage response
matching exactly `L2` and `L5`. -/
theorem unique_reconciliation_correct_witness :
    (⟨2, "t2", "u"⟩ : Listen) ∈ computeUnique batchL1toL5 rowsL2L5 ∧
    (⟨5, "t5", "u"⟩ : Listen) ∈ computeUnique batchL1toL5 rowsL2L5 := by
  have h := (unique_reconciliation_correct batchL1toL5 rowsL2L5).2.2.2
    ⟨2, "t2", "u"⟩ ⟨5, "t5", "u"⟩ (by decide) (by decide) (by decide)
  exact ⟨(h ⟨2, "t2", "u"⟩).mpr (Or.inl rfl), (h ⟨5, "t5", "u"⟩).mpr (Or.inr rfl)⟩

/-- C9: the dedup reconciliation compares the hyphen-joined strings
`'%d-%s-%s'`, not the `(timestamp, track_name, user_name)` triples: the
Listen `⟨1, "a-b", "c"⟩` and the storage-reported row `(1, "a", "b-c")`
have different triples but the same joined key `"1-a-b-c"`, so the Listen
is selected into the unique output even though its triple differs from
the only reported row. -/
theorem dedup_key_string_collision :
    listenKey ⟨1, "a-b", "c"⟩ = "1-a-b-c" ∧
    rowKey (1, "a", "b-c") = "1-a-b-c" ∧
    decide (((⟨1, "a-b", "c"⟩ : Listen).ts_since_epoch,
             (⟨1, "a-b", "c"⟩ : Listen).track_name,
             (⟨1, "a-b", "c"⟩ : Listen).user_name) = ((1, "a", "b-c") : InsertedRow)) = false ∧
    computeUnique [⟨1, "a-b", "c"⟩] [(1, "a", "b-c")] = [⟨1, "a-b", "c"⟩] := by
  refine ⟨rfl, rfl, by decide, rfl⟩

/-- C5: when no exception escapes (the recent-listens cache call does not
raise), `insert_to_listenstore` returns either the distinct failure
sentinel — exactly when the storage insert raised a connectivity error,
which presupposes a non-empty input since the storage call is skipped for
an empty one — or the input length (0 for empty input, with no storage
call); and when storage reports zero newly-inserted rows for a non-empty
input, it returns the input length, not zero, and performs zero publish
calls. -/
theorem insert_return_value_spec (env : StoreEnv) (st : WriterState) (data : List Listen)
    (hu : env.updateRecentFails = false) :
    ∃ v : Int, (insert_to_listenstore env st data).ret = .ok v ∧
      (v = LISTEN_INSERT_ERROR_SENTINEL ↔ data ≠ [] ∧ env.insertResult = .error ()) ∧
      (v ≠ LISTEN_INSERT_ERROR_SENTINEL → v = data.length) ∧
      (data = [] → v = 0 ∧ (insert_to_listenstore env st data).storageCalls = 0) ∧
      (env.insertResult = .ok [] → data ≠ [] →
        v = data.length ∧ (insert_to_listenstore env st data).publishAttempts = 0 ∧
        (insert_to_listenstore env st data).publishSuccesses = 0) := by
  by_cases hdata : data = []
  · subst hdata
    rw [insert_nil]
    refine ⟨0, rfl, ?_, fun _ => rfl, fun _ => ⟨rfl, rfl⟩, fun _ hne => absurd rfl hne⟩
    constructor
    · intro h
      exact absurd h (by decide)
    · rintro ⟨hne, -⟩
      exact absurd rfl hne
  · have hlen : (data.length : Int) ≠ LISTEN_INSERT_ERROR_SENTINEL := by
      simp only [LISTEN_INSERT_ERROR_SENTINEL]
      omega
    cases he : env.insertResult with
    | error e =>
      cases e
      rw [insert_storage_error env st data hdata he]
      exact ⟨LISTEN_INSERT_ERROR_SENTINEL, rfl, iff_of_true rfl ⟨hdata, rfl⟩,
        fun h => absurd rfl h, fun h => absurd h hdata, fun hok _ => (by cases hok)⟩
    | ok rows =>
      have hiff : ((data.length : Int) = LISTEN_INSERT_ERROR_SENTINEL ↔
          data ≠ [] ∧ (Except.ok rows : Except Unit (List InsertedRow)) = .error ()) := by
        constructor
        · intro h
          exact absurd h hlen
        · rintro ⟨-, habs⟩
          cases habs
      by_cases hrows : rows = []
      · subst hrows
        rw [insert_rows_nil env st data hdata he]
        exact ⟨data.length, rfl, hiff, fun _ => rfl, fun h => absurd h hdata,
          fun _ _ => ⟨rfl, rfl, rfl⟩⟩
      · have hoknil : (Except.ok rows : Except Unit (List InsertedRow)) = .ok [] → False :=
          fun hok => absurd (Except.ok.inj hok) hrows
        by_cases huniq : computeUnique data rows = []
        · rw [insert_unique_nil env st data rows hdata he hrows huniq]
          exact ⟨data.length, rfl, hiff, fun _ => rfl, fun h => absurd h hdata,
            fun _ _ => ⟨rfl, rfl, rfl⟩⟩
        · by_cases hnow : env.now > st.metric_submission_time
          · rw [insert_success_flush env st data rows hdata he hrows huniq hu hnow]
            exact ⟨data.length, rfl, hiff, fun _ => rfl, fun h => absurd h hdata,
              fun hok _ => absurd hok hoknil⟩
          · rw [insert_success_noflush env st data rows hdata he hrows huniq hu hnow]
            exact ⟨data.length, rfl, hiff, fun _ => rfl, fun h => absurd h hdata,
              fun hok _ => absurd hok hoknil⟩

/-- Witness for C5: with a failing storage insert on a one-element batch
the returned value is the sentinel. -/
theorem insert_return_value_spec_witness :
    (insert_to_listenstore errEnv st0 [⟨5, "t", "u"⟩]).ret = .ok LISTEN_INSERT_ERROR_SENTINEL := by
  obtain ⟨v, hv, hiff, -, -, -⟩ := insert_return_value_spec errEnv st0 [⟨5, "t", "u"⟩] rfl
  rw [hiff.mpr ⟨by decide, rfl⟩] at hv
  exact hv

/-- C8: a `ConnectionClosed` during the publish of a non-empty unique
subset never abandons the publish and never fails the batch: for any
number `n` of consecutive mid-publish disconnects the loop of lines
201-211 performs `n + 1` attempts and `n` reconnects, exactly one publish
succeeds, the published body is the same unique subset regardless of `n`,
and (when no exception escapes afterwards) the call still returns the full
input length. -/
theorem publish_retried_until_success (env : StoreEnv) (st : WriterState)
    (data : List Listen) (rows : List InsertedRow) (hres : env.insertResult = .ok rows)
    (hdata : data ≠ []) (hrows : rows ≠ []) (huniq : computeUnique data rows ≠ []) :
    (insert_to_listenstore env st data).publishAttempts = env.publishFailures + 1 ∧
    (insert_to_listenstore env st data).publishSuccesses = 1 ∧
    (insert_to_listenstore env st data).reconnects = env.publishFailures ∧
    (insert_to_listenstore env st data).publishedBodies = [computeUnique data rows] ∧
    (env.updateRecentFails = false →
      (insert_to_listenstore env st data).ret = .ok (data.length : Int)) := by
  cases hurf : env.updateRecentFails with
  | true =>
    rw [insert_recent_fail env st data rows hdata hres hrows huniq hurf]
    exact ⟨rfl, rfl, rfl, rfl, fun h => (by cases h)⟩
  | false =>
    by_cases hnow : env.now > st.metric_submission_time
    · rw [insert_success_flush env st data rows hdata hres hrows huniq hurf hnow]
      exact ⟨rfl, rfl, rfl, rfl, fun _ => rfl⟩
    · rw [insert_success_noflush env st data rows hdata hres hrows huniq hurf hnow]
      exact ⟨rfl, rfl, rfl, rfl, fun _ => rfl⟩

/-- Witness for C8: three disconnects before success on a one-element
batch: four attempts, one success, three reconnects, count still returned. -/
theorem publish_retried_until_success_witness :
    (insert_to_listenstore { okEnv with publishFailures := 3 } st0 [⟨5, "t", "u"⟩]).publishAttempts = 4 ∧
    (insert_to_listenstore { okEnv with publishFailures := 3 } st0 [⟨5, "t", "u"⟩]).publishSuccesses = 1 ∧
    (insert_to_listenstore { okEnv with publishFailures := 3 } st0 [⟨5, "t", "u"⟩]).reconnects = 3 ∧
    (insert_to_listenstore { okEnv with publishFailures := 3 } st0 [⟨5, "t", "u"⟩]).ret = .ok 1 := by
  have h := publish_retried_until_success { okEnv with publishFailures := 3 } st0
    [⟨5, "t", "u"⟩] [(5, "t", "u")] rfl (by decide) (by decide) (by decide)
  exact ⟨h.1, h.2.1, h.2.2.1, h.2.2.2.2 rfl⟩

/-- C10: the metric-deadline comparison of line 216 is reached only at the
end of a batch that published a non-empty unique subset; on every
early-return path — empty input, transient storage failure, zero rows
newly inserted, empty unique subset — the deadline is never examined and
nothing is emitted, for every clock reading `env.now` (in particular even
when the interval has elapsed), so an elapsed interval does not by itself
cause an emission. -/
theorem metric_deadline_check_only_on_publish_path (env : StoreEnv) (st : WriterState)
    (data : List Listen) :
    (data = [] → (insert_to_listenstore env st data).deadlineChecked = false ∧
      (insert_to_listenstore env st data).metricsEmits = []) ∧
    (env.insertResult = .error () → (insert_to_listenstore env st data).deadlineChecked = false ∧
      (insert_to_listenstore env st data).metricsEmits = []) ∧
    (env.insertResult = .ok [] → (insert_to_listenstore env st data).deadlineChecked = false ∧
      (insert_to_listenstore env st data).metricsEmits = []) ∧
    (∀ rows, env.insertResult = .ok rows → computeUnique data rows = [] →
      (insert_to_listenstore env st data).deadlineChecked = false ∧
      (insert_to_listenstore env st data).metricsEmits = []) ∧
    ((insert_to_listenstore env st data).deadlineChecked = true →
      (insert_to_listenstore env st data).publishSuccesses = 1 ∧
      (insert_to_listenstore env st data).publishedBodies =
        [computeUnique data (env.insertResult.toOption.getD [])]) := by
  by_cases hdata : data = []
  · subst hdata
    rw [insert_nil]
    exact ⟨fun _ => ⟨rfl, rfl⟩, fun _ => ⟨rfl, rfl⟩, fun _ => ⟨rfl, rfl⟩,
      fun _ _ _ => ⟨rfl, rfl⟩, fun h => (by cases h)⟩
  · cases he : env.insertResult with
    | error e =>
      cases e
      rw [insert_storage_error env st data hdata he]
      exact ⟨fun h => absurd h hdata, fun _ => ⟨rfl, rfl⟩, fun h => (by cases h),
        fun rows h _ => (by cases h), fun h => (by cases h)⟩
    | ok rows =>
      by_cases hrows : rows = []
      · subst hrows
        rw [insert_rows_nil env st data hdata he]
        exact ⟨fun h => absurd h hdata, fun h => (by cases h), fun _ => ⟨rfl, rfl⟩,
          fun _ _ _ => ⟨rfl, rfl⟩, fun h => (by cases h)⟩
      · by_cases huniq : computeUnique data rows = []
        · rw [insert_unique_nil env st data rows hdata he hrows huniq]
          exact ⟨fun h => absurd h hdata, fun h => (by cases h), fun _ => ⟨rfl, rfl⟩,
            fun _ _ _ => ⟨rfl, rfl⟩, fun h => (by cases h)⟩
        · cases hurf : env.updateRecentFails with
          | true =>
            rw [insert_recent_fail env st data rows hdata he hrows huniq hurf]
            exact ⟨fun h => absurd h hdata, fun h => (by cases h), fun _ => ⟨rfl, rfl⟩,
              fun _ _ _ => ⟨rfl, rfl⟩, fun h => (by cases h)⟩
          | false =>
            by_cases hnow : env.now > st.metric_submission_time
            · rw [insert_success_flush env st data rows hdata he hrows huniq hurf hnow]
              refine ⟨fun h => absurd h hdata, fun h => (by cases h),
                fun h => absurd (Except.ok.inj h) hrows, ?_, fun _ => ⟨rfl, rfl⟩⟩
              intro rows2 h2 hu2
              cases Except.ok.inj h2
              exact absurd hu2 huniq
            · rw [insert_success_noflush env st data rows hdata he hrows huniq hurf hnow]
              refine ⟨fun h => absurd h hdata, fun h => (by cases h),
                fun h => absurd (Except.ok.inj h) hrows, ?_, fun _ => ⟨rfl, rfl⟩⟩
              intro rows2 h2 hu2
              cases Except.ok.inj h2
              exact absurd hu2 huniq

/-- Witness for C10: with the storage insert failing and the metric
interval already elapsed (`now = 100 > 60`), nothing is emitted and the
deadline is never examined. -/
theorem metric_deadline_check_only_on_publish_path_witness :
    (insert_to_listenstore { errEnv with now := 100 } st0 [⟨5, "t", "u"⟩]).deadlineChecked = false ∧
    (insert_to_listenstore { errEnv with now := 100 } st0 [⟨5, "t", "u"⟩]).metricsEmits = [] := by
  exact (metric_deadline_check_only_on_publish_path { errEnv with now := 100 } st0
    [⟨5, "t", "u"⟩]).2.1 rfl

/-- C4 counterexample: the claim "a failure of any best-effort side-channel
update — the per-day counter increment and the recent-activity cache
update — is swallowed inside `insert_to_listenstore`, never propagates,
and never prevents acknowledgment" is false for the recent-activity cache
update: `update_recent_listens` (line 213) is called outside any
try/except, so on a batch whose single Listen is newly inserted its
exception escapes `insert_to_listenstore`, propagates through `callback`
(which therefore never reaches `basic_ack`), and the message is never
acknowledged. -/
theorem update_recent_failure_propagates_counterexample :
    (insert_to_listenstore recentFailEnv st0 [⟨5, "t", "u"⟩]).ret =
      .error .updateRecentListensError ∧
    (callback { okCbEnv with store := recentFailEnv } st0 [rawA]).ret =
      .error .updateRecentListensError ∧
    (callback { okCbEnv with store := recentFailEnv } st0 [rawA]).ackSuccesses = 0 ∧
    (callback { okCbEnv with store := recentFailEnv } st0 [rawA]).ackAttempts = 0 :=
  ⟨rfl, rfl, rfl, rfl⟩

/-- C4 as amended: a failure of the per-day counter increment (lines
182-186, guarded by try/except) is fully swallowed — for any two
collaborator environments that agree on everything except whether that
increment raises, every observable of the call except the error log line
is identical: the returned value, the counter state, and all
storage/publish/metric effects. A failure of the recent-activity cache
update (line 213, unguarded), by contrast, escapes `insert_to_listenstore`
as an exception on the publish path, so it does reach the caller and does
prevent acknowledgment. -/
theorem side_channel_error_handling (env env2 : StoreEnv) (st : WriterState)
    (data : List Listen) (h1 : env2.insertResult = env.insertResult)
    (h2 : env2.publishFailures = env.publishFailures)
    (h3 : env2.updateRecentFails = env.updateRecentFails) (h4 : env2.now = env.now) :
    ((insert_to_listenstore env2 st data).ret = (insert_to_listenstore env st data).ret ∧
     (insert_to_listenstore env2 st data).state = (insert_to_listenstore env st data).state ∧
     (insert_to_listenstore env2 st data).storageCalls =
       (insert_to_listenstore env st data).storageCalls ∧
     (insert_to_listenstore env2 st data).publishAttempts =
       (insert_to_listenstore env st data).publishAttempts ∧
     (insert_to_listenstore env2 st data).publishSuccesses =
       (insert_to_listenstore env st data).publishSuccesses ∧
     (insert_to_listenstore env2 st data).reconnects =
       (insert_to_listenstore env st data).reconnects ∧
     (insert_to_listenstore env2 st data).publishedBodies =
       (insert_to_listenstore env st data).publishedBodies ∧
     (insert_to_listenstore env2 st data).deadlineChecked =
       (insert_to_listenstore env st data).deadlineChecked ∧
     (insert_to_listenstore env2 st data).metricsEmits =
       (insert_to_listenstore env st data).metricsEmits ∧
     (insert_to_listenstore env2 st data).sleeps =
       (insert_to_listenstore env st data).sleeps) ∧
    (∀ rows, data ≠ [] → env.insertResult = .ok rows → rows ≠ [] →
      computeUnique data rows ≠ [] → env.updateRecentFails = true →
      (insert_to_listenstore env st data).ret = .error .updateRecentListensError) := by
  constructor
  · by_cases hdata : data = []
    · subst hdata
      rw [insert_nil, insert_nil]
      exact ⟨rfl, rfl, rfl, rfl, rfl, rfl, rfl, rfl, rfl, rfl⟩
    · cases he : env.insertResult with
      | error e =>
        cases e
        rw [insert_storage_error env2 st data hdata (h1.trans he),
            insert_storage_error env st data hdata he]
        exact ⟨rfl, rfl, rfl, rfl, rfl, rfl, rfl, rfl, rfl, rfl⟩
      | ok rows =>
        by_cases hrows : rows = []
        · subst hrows
          rw [insert_rows_nil env2 st data hdata (h1.trans he),
              insert_rows_nil env st data hdata he]
          exact ⟨rfl, rfl, rfl, rfl, rfl, rfl, rfl, rfl, rfl, rfl⟩
        · by_cases huniq : computeUnique data rows = []
          · rw [insert_unique_nil env2 st data rows hdata (h1.trans he) hrows huniq,
                insert_unique_nil env st data rows hdata he hrows huniq]
            exact ⟨rfl, rfl, rfl, rfl, rfl, rfl, rfl, rfl, rfl, rfl⟩
          · cases hurf : env.updateRecentFails with
            | true =>
              rw [insert_recent_fail env2 st data rows hdata (h1.trans he) hrows huniq
                    (h3.trans hurf),
                  insert_recent_fail env st data rows hdata he hrows huniq hurf]
              exact ⟨rfl, rfl, rfl, (by rw [h2]), rfl, (by rw [h2]), rfl, rfl, rfl, rfl⟩
            | false =>
              by_cases hnow : env.now > st.metric_submission_time
              · rw [insert_success_flush env2 st data rows hdata (h1.trans he) hrows huniq
                      (h3.trans hurf) (by rw [h4]; exact hnow),
                    insert_success_flush env st data rows hdata he hrows huniq hurf hnow]
                exact ⟨rfl, rfl, rfl, (by rw [h2]), rfl, (by rw [h2]), rfl, rfl, rfl, rfl⟩
              · rw [insert_success_noflush env2 st data rows hdata (h1.trans he) hrows huniq
                      (h3.trans hurf) (by rw [h4]; exact hnow),
                    insert_success_noflush env st data rows hdata he hrows huniq hurf hnow]
                exact ⟨rfl, rfl, rfl, (by rw [h2]), rfl, (by rw [h2]), rfl, rfl, rfl, rfl⟩
  · intro rows hdata hres hrows huniq hurf
    rw [insert_recent_fail env st data rows hdata hres hrows huniq hurf]

/-- Witness for C4 (amended): on a concrete batch the unguarded cache
failure escapes as an exception, while flipping the day-counter failure
flag leaves the returned value unchanged. -/
theorem side_channel_error_handling_witness :
    (insert_to_listenstore recentFailEnv st0 [⟨5, "t", "u"⟩]).ret =
      .error .updateRecentListensError ∧
    (insert_to_listenstore { recentFailEnv with incrementFails := true } st0 [⟨5, "t", "u"⟩]).ret =
      (insert_to_listenstore recentFailEnv st0 [⟨5, "t", "u"⟩]).ret := by
  constructor
  · exact (side_channel_error_handling recentFailEnv recentFailEnv st0 [⟨5, "t", "u"⟩]
      rfl rfl rfl rfl).2 [(5, "t", "u")] (by decide) rfl (by decide) (by decide) rfl
  · exact (side_channel_error_handling recentFailEnv
      { recentFailEnv with incrementFails := true } st0 [⟨5, "t", "u"⟩] rfl rfl rfl rfl).1.1

/-- C6 counterexample: `incoming_listens` is not "incremented exactly once
per successfully processed batch": line 171 increments it before the
storage call, so a batch whose insert raises the transient failure — a
batch that is not successfully processed and whose message stays
unacknowledged — still bumps the counter by the batch size (and the same
batch bumps it again when the broker redelivers it). -/
theorem incoming_incremented_on_failed_batch_counterexample :
    (insert_to_listenstore errEnv st0 [⟨5, "t", "u"⟩]).ret = .ok LISTEN_INSERT_ERROR_SENTINEL ∧
    (insert_to_listenstore errEnv st0 [⟨5, "t", "u"⟩]).state.incoming_listens = 1 ∧
    st0.incoming_listens = 0 :=
  ⟨rfl, rfl, rfl⟩

/-- C6 as amended: `incoming_listens` is incremented by the submitted count
on every insertion attempt with a non-empty batch — including
transient-failure attempts, so a redelivered batch is counted once per
attempt — while `unique_listens` grows only on the full success path with
a non-empty unique subset; and when the flush fires the cumulative totals
are emitted exactly once, both counters reset to zero, and the deadline
advances by exactly one `METRIC_UPDATE_INTERVAL`, so post-flush batches
never double-count into the emitted totals. -/
theorem counter_accumulation_and_flush (env : StoreEnv) (st : WriterState) (data : List Listen)
    (hu : env.updateRecentFails = false) :
    (data = [] → (insert_to_listenstore env st data).state = st ∧
      (insert_to_listenstore env st data).metricsEmits = []) ∧
    (data ≠ [] → env.insertResult = .error () →
      (insert_to_listenstore env st data).state =
        { st with incoming_listens := st.incoming_listens + data.length } ∧
      (insert_to_listenstore env st data).metricsEmits = []) ∧
    (∀ rows, data ≠ [] → env.insertResult = .ok rows → computeUnique data rows = [] →
      (insert_to_listenstore env st data).state =
        { st with incoming_listens := st.incoming_listens + data.length } ∧
      (insert_to_listenstore env st data).metricsEmits = []) ∧
    (∀ rows, data ≠ [] → env.insertResult = .ok rows → rows ≠ [] →
      computeUnique data rows ≠ [] → ¬ env.now > st.metric_submission_time →
      (insert_to_listenstore env st data).state =
        { incoming_listens := st.incoming_listens + data.length,
          unique_listens := st.unique_listens + (computeUnique data rows).length,
          metric_submission_time := st.metric_submission_time } ∧
      (insert_to_listenstore env st data).metricsEmits = []) ∧
    (∀ rows, data ≠ [] → env.insertResult = .ok rows → rows ≠ [] →
      computeUnique data rows ≠ [] → env.now > st.metric_submission_time →
      (insert_to_listenstore env st data).metricsEmits =
        [(st.incoming_listens + data.length,
          st.unique_listens + (computeUnique data rows).length)] ∧
      (insert_to_listenstore env st data).state =
        { incoming_listens := 0, unique_listens := 0,
          metric_submission_time := st.metric_submission_time + METRIC_UPDATE_INTERVAL }) := by
  refine ⟨?_, ?_, ?_, ?_, ?_⟩
  · intro h
    subst h
    rw [insert_nil]
    exact ⟨rfl, rfl⟩
  · intro hdata he
    rw [insert_storage_error env st data hdata he]
    exact ⟨rfl, rfl⟩
  · intro rows hdata hres hcu
    by_cases hrows : rows = []
    · subst hrows
      rw [insert_rows_nil env st data hdata hres]
      exact ⟨rfl, rfl⟩
    · rw [insert_unique_nil env st data rows hdata hres hrows hcu]
      exact ⟨rfl, rfl⟩
  · intro rows hdata hres hrows hcu hnow
    rw [insert_success_noflush env st data rows hdata hres hrows hcu hu hnow]
    exact ⟨rfl, rfl⟩
  · intro rows hdata hres hrows hcu hnow
    rw [insert_success_flush env st data rows hdata hres hrows hcu hu hnow]
    exact ⟨rfl, rfl⟩

/-- Witness for C6 (amended): a one-Listen batch processed after the
deadline has elapsed emits exactly the cumulative totals `(1, 1)` once and
resets both counters, advancing the deadline from 60 to 120. -/
theorem counter_accumulation_and_flush_witness :
    (insert_to_listenstore { okEnv with now := 100 } st0 [⟨5, "t", "u"⟩]).metricsEmits =
      [(1, 1)] ∧
    (insert_to_listenstore { okEnv with now := 100 } st0 [⟨5, "t", "u"⟩]).state =
      { incoming_listens := 0, unique_listens := 0, metric_submission_time := 120 } := by
  have h := (counter_accumulation_and_flush { okEnv with now := 100 } st0 [⟨5, "t", "u"⟩]
    rfl).2.2.2.2 [(5, "t", "u")] (by decide) rfl (by decide) (by decide) (by decide)
  exact ⟨h.1, h.2⟩

/-- C1: a message is acknowledged iff the insertion step did not report the
transient-failure sentinel: when `insert_to_listenstore` returns the
sentinel, `callback` returns it without attempting any `basic_ack`
(lines 88-90); on every non-sentinel return, `callback` issues exactly one
(successful) acknowledgment and returns that value (lines 92-99); and when
the insertion step raises instead of returning, no acknowledgment is
issued either. -/
theorem callback_ack_iff (env : CallbackEnv) (st : WriterState) (listens : List RawListen) :
    ((insert_to_listenstore env.store st
        (parseStage (enrichStage env.lookup env.chunkSize listens).msb)).ret =
          .ok LISTEN_INSERT_ERROR_SENTINEL →
      (callback env st listens).ackSuccesses = 0 ∧ (callback env st listens).ackAttempts = 0 ∧
      (callback env st listens).ret = .ok LISTEN_INSERT_ERROR_SENTINEL) ∧
    (∀ e, (insert_to_listenstore env.store st
        (parseStage (enrichStage env.lookup env.chunkSize listens).msb)).ret = .error e →
      (callback env st listens).ackSuccesses = 0 ∧ (callback env st listens).ackAttempts = 0) ∧
    (∀ v : Int, (insert_to_listenstore env.store st
        (parseStage (enrichStage env.lookup env.chunkSize listens).msb)).ret = .ok v →
      v ≠ LISTEN_INSERT_ERROR_SENTINEL →
      (callback env st listens).ackSuccesses = 1 ∧ (callback env st listens).ret = .ok v) := by
  refine ⟨?_, ?_, ?_⟩
  · intro h
    have heq := (afterEnrichment_cases env st (enrichStage env.lookup env.chunkSize listens)).2.1 h
    unfold callback
    rw [heq]
    exact ⟨rfl, rfl, rfl⟩
  · intro e h
    have heq := (afterEnrichment_cases env st (enrichStage env.lookup env.chunkSize listens)).1 e h
    unfold callback
    rw [heq]
    exact ⟨rfl, rfl⟩
  · intro v hv hne
    have heq := (afterEnrichment_cases env st
      (enrichStage env.lookup env.chunkSize listens)).2.2 v hv hne
    unfold callback
    rw [heq]
    exact ⟨rfl, rfl⟩

/-- Witness for C1: a fully successful one-record batch is acknowledged
exactly once and its count returned. -/
theorem callback_ack_iff_witness :
    (callback okCbEnv st0 [rawA]).ackSuccesses = 1 ∧ (callback okCbEnv st0 [rawA]).ret = .ok 1 :=
  (callback_ack_iff okCbEnv st0 [rawA]).2.2 1 rfl (by decide)

/-- C7 counterexample: the claim that each parse drop is "counted" is
false — the drop leaves no trace at all.  `enrBad` fails
`Listen.from_json`, yet the complete observable outcome of the
post-enrichment pipeline on `[enrA, enrBad]` (return value, counter state,
error-log count, acknowledgments, metric emissions, everything) is
identical, field for field, to the outcome on `[enrA]` where the malformed
record was never present; nothing counts the drop.  The rest of the batch
still proceeds: the parsed submission is `[⟨5, "t", "u"⟩]` and the message
is acknowledged once. -/
theorem parse_drop_uncounted_counterexample :
    Listen.from_json enrBad = .error () ∧
    afterEnrichment okCbEnv st0 { msb := [enrA, enrBad], errorLogs := 0 } =
      afterEnrichment okCbEnv st0 { msb := [enrA], errorLogs := 0 } ∧
    (afterEnrichment okCbEnv st0 { msb := [enrA, enrBad], errorLogs := 0 }).submit =
      [⟨5, "t", "u"⟩] ∧
    (afterEnrichment okCbEnv st0 { msb := [enrA, enrBad], errorLogs := 0 }).errorLogs = 0 ∧
    (afterEnrichment okCbEnv st0 { msb := [enrA, enrBad], errorLogs := 0 }).ackSuccesses = 1 :=
  ⟨rfl, rfl, rfl, rfl, rfl⟩

/-- C7 as amended: an enriched record that fails conversion to a `Listen`
is dropped individually — the records before and after it in the batch
still proceed to insertion exactly as if it had not been there — and the
drop is silent: it is neither logged at error level nor counted anywhere;
the whole downstream outcome of the batch is unchanged. -/
theorem parse_failure_dropped_silently (env : CallbackEnv) (st : WriterState)
    (p s : List EnrichedListen) (e : EnrichedListen) (lg : Nat)
    (he : Listen.from_json e = .error ()) :
    parseStage (p ++ e :: s) = parseStage (p ++ s) ∧
    afterEnrichment env st { msb := p ++ e :: s, errorLogs := lg } =
      afterEnrichment env st { msb := p ++ s, errorLogs := lg } := by
  have hp := parseStage_drop_middle he p s
  refine ⟨hp, ?_⟩
  simp only [afterEnrichment]
  rw [hp]

/-- Witness for C7 (amended): dropping the malformed `enrBad` from the
front of a batch leaves the parse result of the rest intact. -/
theorem parse_failure_dropped_silently_witness :
    parseStage ([] ++ enrBad :: [enrA]) = parseStage ([] ++ [enrA]) :=
  (parse_failure_dropped_silently okCbEnv st0 [] [enrA] enrBad 0 rfl).1

/-- C3 counterexample: the claim that a record whose merged response lacks
the mandatory identifiers is dropped "with the rest of the failing
record's sub-batch otherwise preserved" is false.  In the two-record
sub-batch `[rawA, rawB]` the lookup call itself succeeds and `rawA`'s
response carries both mandatory identifiers, yet the enrichment output is
`[]` — line 144 returns the empty list for the whole sub-batch, so `rawA`
is not preserved (the claim predicts the output `[augmentOne (rawA,
goodIds)]`). -/
theorem missing_ids_drop_whole_subbatch_counterexample :
    mixedLookup ([rawA, rawB].map toMessyDict) = .ok [goodIds, badIds] ∧
    hasMandatoryIds goodIds = true ∧
    hasMandatoryIds badIds = false ∧
    (messybrainz_lookup mixedLookup [rawA, rawB]).augmented = [] ∧
    (messybrainz_lookup mixedLookup [rawA, rawB]).errorLogs = 1 ∧
    decide ((messybrainz_lookup mixedLookup [rawA, rawB]).augmented =
      [augmentOne (rawA, goodIds)]) = false :=
  ⟨rfl, rfl, rfl, rfl, rfl, rfl⟩

/-- C3 as amended: the enrichment output is the concatenation, over the
fixed-size sub-batches partitioning the input, of each sub-batch's own
`messybrainz_lookup` result, where a sub-batch contributes nothing when
its lookup call failed entirely, contributes nothing when any of its
records' merged responses lacks one of the two mandatory identifiers (the
whole sub-batch is dropped, not just the failing record), and otherwise
contributes all of its records augmented positionally. -/
theorem enrichment_drop_semantics (lk : List MessyDict → Except Unit (List MsbIds))
    (chunkSize : Nat) (listens : List RawListen) :
    (enrichStage lk chunkSize listens).msb =
      ((chunked chunkSize listens).map fun c => (messybrainz_lookup lk c).augmented).flatten ∧
    (chunked chunkSize listens).flatten = listens ∧
    (∀ c : List RawListen, lk (c.map toMessyDict) = .error () →
      (messybrainz_lookup lk c).augmented = []) ∧
    (∀ c payload, lk (c.map toMessyDict) = .ok payload →
      (∃ pr ∈ c.zip payload, hasMandatoryIds pr.2 = false) →
      (messybrainz_lookup lk c).augmented = []) ∧
    (∀ c payload, lk (c.map toMessyDict) = .ok payload →
      (∀ pr ∈ c.zip payload, hasMandatoryIds pr.2 = true) →
      (messybrainz_lookup lk c).augmented = (c.zip payload).map augmentOne) := by
  refine ⟨enrichStage_msb lk chunkSize listens, chunked_flatten chunkSize listens, ?_, ?_, ?_⟩
  · intro c hc
    unfold messybrainz_lookup
    rw [hc]
  · intro c payload hc hbad
    unfold messybrainz_lookup
    simp only [hc]
    rw [augmentGo_some_missing (c.zip payload) [] hbad]
  · intro c payload hc hgood
    unfold messybrainz_lookup
    simp only [hc]
    rw [augmentGo_all_mandatory (c.zip payload) [] hgood]
    simp

/-- Witness for C3 (amended): a clean one-record sub-batch is preserved in
full, augmented positionally. -/
theorem enrichment_drop_semantics_witness :
    (messybrainz_lookup (fun _ => Except.ok [goodIds]) [rawA]).augmented =
      ([rawA].zip [goodIds]).map augmentOne :=
  (enrichment_drop_semantics (fun _ => Except.ok [goodIds]) 1 [rawA]).2.2.2.2
    [rawA] [goodIds] rfl (by decide)

end TimescaleWriter
